import Mathlib

/-!
Formal model of `tools/generate_sprites.py`.

The script procedurally draws a fixed catalog of RGBA pixel-art sprites
(units, buildings, resource nodes, terrain), applies a per-pixel faction
tint, and writes the results to disk.  We embed the canvas data model, the
eleven generator functions, the tint transform and the driver's output
catalog, and prove the testable properties stated in the design document.

Python integers are modelled by `ℤ` (with `//` as `Int.fdiv`), Python
floats by exact rationals `ℚ`, and Python's `int(...)` truncation by
`pytrunc`.  The 2D raster drawing library used by the script (PIL) is an
assumed external collaborator, so its primitives are modelled from the
spec as region fills over the canvas.
-/

namespace SpriteGen

/-- An RGBA pixel value, one integer per channel (Python tuple of ints). -/
structure RGBA where
  r : ℤ
  g : ℤ
  b : ℤ
  a : ℤ
deriving DecidableEq

/-- A canvas: a width × height grid of RGBA pixels.  Pixel contents are a
total function; only coordinates `0 ≤ x < width`, `0 ≤ y < height` are
meaningful. -/
@[ext]
structure Canvas where
  width : ℤ
  height : ℤ
  pix : ℤ → ℤ → RGBA

/-- Python's floor division `//` on integers. -/
def pydiv (a b : ℤ) : ℤ := Int.fdiv a b

/-- Python's `int(...)` applied to an exact rational: truncation toward
zero. -/
def pytrunc (q : ℚ) : ℤ := if 0 ≤ q then ⌊q⌋ else ⌈q⌉

/-- Modelled from the spec: canvas creation (`Image.new`), every pixel
initialized to the given color. -/
def imageNew (w h : ℤ) (c : RGBA) : Canvas := ⟨w, h, fun _ _ => c⟩

/-- Overwrite every pixel of a region with a fill color (dimensions are
unchanged; drawing never alters the canvas size). -/
def fillRegion (img : Canvas) (reg : ℤ → ℤ → Bool) (c : RGBA) : Canvas :=
  ⟨img.width, img.height, fun x y => if reg x y then c else img.pix x y⟩

/-- Membership in an axis-aligned rectangle with inclusive corners. -/
def inRect (x0 y0 x1 y1 x y : ℤ) : Bool :=
  decide (x0 ≤ x ∧ x ≤ x1 ∧ y0 ≤ y ∧ y ≤ y1)

/-- Membership in the closed ellipse inscribed in the bounding box
`[x0, y0, x1, y1]` (center `((x0+x1)/2, (y0+y1)/2)`, diameters
`x1-x0`, `y1-y0`), expressed with integer arithmetic scaled by 2. -/
def inEllipse (x0 y0 x1 y1 x y : ℤ) : Bool :=
  decide ((2*x - (x0+x1)) * (2*x - (x0+x1)) * ((y1-y0) * (y1-y0)) +
          (2*y - (y0+y1)) * (2*y - (y0+y1)) * ((x1-x0) * (x1-x0)) ≤
          (x1-x0) * (x1-x0) * ((y1-y0) * (y1-y0)))

/-- Does the horizontal ray from `(x, y)` toward `+∞` cross the edge
`e = ((x1,y1), (x2,y2))`?  Half-open in `y` so that shared vertices are
counted once; the strict comparison is the ray-crossing test with the
division cleared (sign-adjusted by the direction of the edge). -/
def edgeCrosses (x y : ℤ) (e : (ℤ × ℤ) × (ℤ × ℤ)) : Bool :=
  if e.1.2 ≤ y ∧ y < e.2.2 then
    decide ((x - e.1.1) * (e.2.2 - e.1.2) < (y - e.1.2) * (e.2.1 - e.1.1))
  else if e.2.2 ≤ y ∧ y < e.1.2 then
    decide ((y - e.1.2) * (e.2.1 - e.1.1) < (x - e.1.1) * (e.2.2 - e.1.2))
  else false

/-- The cyclic edge list of a polygon given by its vertices. -/
def polyEdges (pts : List (ℤ × ℤ)) : List ((ℤ × ℤ) × (ℤ × ℤ)) :=
  pts.zip (pts.rotate 1)

/-- Membership in a filled polygon: even-odd rule (odd number of edge
crossings to the right of the point). -/
def inPolygon (pts : List (ℤ × ℤ)) (x y : ℤ) : Bool :=
  decide (((polyEdges pts).countP (edgeCrosses x y)) % 2 = 1)

/-- Membership in a line segment of the given stroke width: squared
distance from the point to the segment at most `(w/2)²` (cleared of
denominators). -/
def nearSegment (x1 y1 x2 y2 w x y : ℤ) : Bool :=
  let dx := x2 - x1
  let dy := y2 - y1
  let ux := x - x1
  let uy := y - y1
  let len2 := dx*dx + dy*dy
  let t := ux*dx + uy*dy
  if t ≤ 0 ∨ len2 = 0 then decide (4*(ux*ux + uy*uy) ≤ w*w)
  else if len2 ≤ t then decide (4*((x - x2)*(x - x2) + (y - y2)*(y - y2)) ≤ w*w)
  else decide (4*((ux*dy - uy*dx) * (ux*dy - uy*dx)) ≤ w*w*len2)

/-- Modelled from the spec: PIL's filled rectangle primitive
(`draw.rectangle`), corners inclusive. -/
def drawRectangle (img : Canvas) (x0 y0 x1 y1 : ℤ) (c : RGBA) : Canvas :=
  fillRegion img (fun x y => inRect x0 y0 x1 y1 x y) c

/-- Modelled from the spec: PIL's filled ellipse primitive
(`draw.ellipse`), the ellipse inscribed in the given bounding box. -/
def drawEllipse (img : Canvas) (x0 y0 x1 y1 : ℤ) (c : RGBA) : Canvas :=
  fillRegion img (fun x y => inEllipse x0 y0 x1 y1 x y) c

/-- Modelled from the spec: PIL's filled polygon primitive
(`draw.polygon`), even-odd interior of the vertex list. -/
def drawPolygon (img : Canvas) (pts : List (ℤ × ℤ)) (c : RGBA) : Canvas :=
  fillRegion img (fun x y => inPolygon pts x y) c

/-- Modelled from the spec: PIL's line primitive with a stroke width
(`draw.line`). -/
def drawLine (img : Canvas) (x1 y1 x2 y2 : ℤ) (c : RGBA) (w : ℤ) : Canvas :=
  fillRegion img (fun x y => nearSegment x1 y1 x2 y2 w x y) c

/-- Modelled from the spec: PIL's arc primitive (`draw.arc`) for the one
angle range the source uses, 180° to 360° (the upper half, since the y
axis points down): the upper half of the ring between the inscribed
ellipse and the ellipse of the box inset by the stroke width. -/
def drawArc180To360 (img : Canvas) (x0 y0 x1 y1 : ℤ) (c : RGBA) (w : ℤ) : Canvas :=
  fillRegion img
    (fun x y => inEllipse x0 y0 x1 y1 x y &&
      !inEllipse (x0+w) (y0+w) (x1-w) (y1-w) x y && decide (2*y ≤ y0 + y1)) c

/-- `create_infantry_sprite`: a soldier/infantry sprite — humanoid with
rifle. -/
def create_infantry_sprite (size : ℤ) : Canvas :=
  let img := imageNew size size ⟨0, 0, 0, 0⟩
  let cx := pydiv size 2
  let cy := pydiv size 2
  let head_r := pydiv size 8
  let img := drawEllipse img (cx - head_r) 4 (cx + head_r) (4 + head_r * 2) ⟨200, 200, 200, 255⟩
  let body_top := 4 + head_r * 2
  let body_bottom := cy + pydiv size 4
  let img := drawRectangle img (cx - pydiv size 6) body_top (cx + pydiv size 6) body_bottom ⟨100, 100, 100, 255⟩
  let leg_w := pydiv size 10
  let img := drawRectangle img (cx - pydiv size 5) body_bottom (cx - pydiv size 5 + leg_w) (size - 4) ⟨80, 80, 80, 255⟩
  let img := drawRectangle img (cx + pydiv size 5 - leg_w) body_bottom (cx + pydiv size 5) (size - 4) ⟨80, 80, 80, 255⟩
  let img := drawRectangle img (cx - pydiv size 4) (body_top + 2) (cx - pydiv size 6) (body_bottom - 4) ⟨100, 100, 100, 255⟩
  let img := drawRectangle img (cx + pydiv size 6) (body_top + 2) (cx + pydiv size 4) (body_bottom - 4) ⟨100, 100, 100, 255⟩
  let img := drawLine img (cx + pydiv size 4) (body_top + 4) (cx + pydiv size 3 + 4) (body_top - 4) ⟨60, 60, 60, 255⟩ 2
  img

/-- `create_ranger_sprite`: a ranger/sniper sprite — taller, with long
rifle. -/
def create_ranger_sprite (size : ℤ) : Canvas :=
  let img := imageNew size size ⟨0, 0, 0, 0⟩
  let cx := pydiv size 2
  let head_r := pydiv size 10
  let img := drawEllipse img (cx - head_r - 1) 2 (cx + head_r + 1) (2 + head_r * 2 + 2) ⟨60, 80, 60, 255⟩
  let img := drawEllipse img (cx - head_r) 3 (cx + head_r) (3 + head_r * 2) ⟨180, 160, 140, 255⟩
  let body_top := 3 + head_r * 2
  let img := drawPolygon img
    [(cx, body_top), (cx - pydiv size 4, size - 6), (cx + pydiv size 4, size - 6)] ⟨50, 70, 50, 255⟩
  let img := drawLine img (cx - 2) (body_top + 4) (cx + pydiv size 2 - 2) 0 ⟨40, 40, 40, 255⟩ 3
  let img := drawEllipse img (cx + pydiv size 4 - 1) 2 (cx + pydiv size 4 + 2) 5 ⟨100, 200, 255, 255⟩
  img

/-- `create_harvester_sprite`: a harvester/worker vehicle sprite. -/
def create_harvester_sprite (size : ℤ) : Canvas :=
  let img := imageNew size size ⟨0, 0, 0, 0⟩
  let body_margin : ℤ := 4
  let img := drawRectangle img body_margin (pydiv size 3) (size - body_margin) (size - 6) ⟨180, 140, 60, 255⟩
  let cab_w := pydiv size 3
  let cx := pydiv size 2
  let img := drawRectangle img (cx - pydiv cab_w 2) 6 (cx + pydiv cab_w 2) (pydiv size 3 + 2) ⟨160, 120, 40, 255⟩
  let img := drawRectangle img (cx - pydiv cab_w 4) 8 (cx + pydiv cab_w 4) (pydiv size 4) ⟨100, 180, 220, 255⟩
  let img := drawPolygon img
    [(2, size - 8), (body_margin, pydiv size 2), (body_margin + pydiv size 4, pydiv size 2),
     (body_margin + pydiv size 4 + 2, size - 8)] ⟨120, 100, 40, 255⟩
  let track_y := size - 5
  let img := drawEllipse img body_margin (track_y - 3) (body_margin + 8) (track_y + 3) ⟨40, 40, 40, 255⟩
  let img := drawEllipse img (size - body_margin - 8) (track_y - 3) (size - body_margin) (track_y + 3) ⟨40, 40, 40, 255⟩
  let img := (List.range 3).foldl (fun im i =>
    let y := pydiv size 2 + 4 + (i : ℤ) * 4
    drawLine im (body_margin + 4) y (size - body_margin - 4) y ⟨140, 100, 40, 255⟩ 1) img
  img

/-- `create_depot_sprite`: the main depot/base building sprite. -/
def create_depot_sprite (size : ℤ) : Canvas :=
  let img := imageNew size size ⟨0, 0, 0, 0⟩
  let margin : ℤ := 4
  let img := drawRectangle img margin (pydiv size 4) (size - margin) (size - margin) ⟨100, 110, 130, 255⟩
  let img := drawPolygon img
    [(margin, pydiv size 4), (pydiv size 2, margin), (size - margin, pydiv size 4)] ⟨70, 80, 100, 255⟩
  let win_color : RGBA := ⟨80, 160, 200, 255⟩
  let win_size : ℤ := 6
  let img := (List.range 2).foldl (fun im row =>
    (List.range 4).foldl (fun im2 col =>
      let wx := margin + 8 + (col : ℤ) * 12
      let wy := pydiv size 4 + 8 + (row : ℤ) * 14
      drawRectangle im2 wx wy (wx + win_size) (wy + win_size) win_color) im) img
  let door_w : ℤ := 12
  let door_h : ℤ := 16
  let cx := pydiv size 2
  let img := drawRectangle img (cx - pydiv door_w 2) (size - margin - door_h) (cx + pydiv door_w 2) (size - margin) ⟨60, 50, 40, 255⟩
  let img := drawLine img (size - margin - 8) (margin + 4) (size - margin - 8) (pydiv size 4) ⟨80, 80, 80, 255⟩ 2
  let img := drawEllipse img (size - margin - 11) (margin + 1) (size - margin - 5) (margin + 7) ⟨255, 100, 100, 255⟩
  img

/-- `create_barracks_sprite`: a barracks building sprite. -/
def create_barracks_sprite (size : ℤ) : Canvas :=
  let img := imageNew size size ⟨0, 0, 0, 0⟩
  let margin : ℤ := 3
  let img := drawRectangle img margin (pydiv size 5) (size - margin) (size - margin) ⟨90, 85, 80, 255⟩
  let img := drawRectangle img (margin - 1) (pydiv size 5 - 3) (size - margin + 1) (pydiv size 5 + 2) ⟨70, 65, 60, 255⟩
  let img := (List.range 3).foldl (fun im i =>
    let wx := margin + 8 + (i : ℤ) * 12
    drawRectangle im wx (pydiv size 3) (wx + 8) (pydiv size 3 + 4) ⟨40, 60, 80, 255⟩) img
  let door_w : ℤ := 20
  let cx := pydiv size 2
  let img := drawRectangle img (cx - pydiv door_w 2) (pydiv size 2) (cx + pydiv door_w 2) (size - margin) ⟨50, 50, 50, 255⟩
  let img := drawLine img cx (pydiv size 2) cx (size - margin) ⟨40, 40, 40, 255⟩ 1
  let star_cx := size - margin - 10
  let star_cy := pydiv size 3 + 8
  let img := drawPolygon img
    [(star_cx, star_cy - 5), (star_cx + 2, star_cy - 1), (star_cx + 5, star_cy),
     (star_cx + 2, star_cy + 1), (star_cx, star_cy + 5), (star_cx - 2, star_cy + 1),
     (star_cx - 5, star_cy), (star_cx - 2, star_cy - 1)] ⟨180, 50, 50, 255⟩
  img

/-- `create_supply_depot_sprite`: a supply depot sprite (storage
building). -/
def create_supply_depot_sprite (size : ℤ) : Canvas :=
  let img := imageNew size size ⟨0, 0, 0, 0⟩
  let margin : ℤ := 2
  let img := drawRectangle img margin (pydiv size 3) (size - margin) (size - margin) ⟨140, 130, 110, 255⟩
  let img := drawPolygon img
    [(margin, pydiv size 3), (pydiv size 2, margin + 2), (size - margin, pydiv size 3)] ⟨120, 80, 60, 255⟩
  let _door_w := size - 8
  let img := drawRectangle img 4 (pydiv size 2) (size - 4) (size - margin) ⟨100, 90, 70, 255⟩
  let img := drawRectangle img 6 (pydiv size 2 + 4) 12 (size - 4) ⟨180, 140, 80, 255⟩
  let img := drawRectangle img 14 (pydiv size 2 + 6) 20 (size - 4) ⟨160, 120, 60, 255⟩
  let img := drawRectangle img 22 (pydiv size 2 + 4) 28 (size - 4) ⟨170, 130, 70, 255⟩
  img

/-- `create_tech_lab_sprite`: a tech lab building sprite. -/
def create_tech_lab_sprite (size : ℤ) : Canvas :=
  let img := imageNew size size ⟨0, 0, 0, 0⟩
  let margin : ℤ := 3
  let cx := pydiv size 2
  let img := drawRectangle img margin (pydiv size 4) (size - margin) (size - margin) ⟨80, 70, 120, 255⟩
  let img := drawEllipse img (cx - pydiv size 4) margin (cx + pydiv size 4) (pydiv size 3) ⟨100, 90, 150, 255⟩
  let win_color : RGBA := ⟨100, 200, 255, 255⟩
  let img := (List.range 2).foldl (fun im i =>
    (List.range 2).foldl (fun im2 j =>
      let wx := margin + 6 + (i : ℤ) * 16
      let wy := pydiv size 3 + 4 + (j : ℤ) * 10
      drawEllipse im2 wx wy (wx + 8) (wy + 6) win_color) im) img
  let img := drawEllipse img (cx - 4) (pydiv size 5) (cx + 4) (pydiv size 5 + 8) ⟨150, 100, 255, 255⟩
  let img := drawArc180To360 img (size - margin - 12) margin (size - margin) (margin + 10) ⟨150, 150, 150, 255⟩ 2
  let img := drawLine img (size - margin - 6) (margin + 5) (size - margin - 6) (margin + 12) ⟨100, 100, 100, 255⟩ 1
  img

/-- `create_turret_sprite`: a defensive turret sprite. -/
def create_turret_sprite (size : ℤ) : Canvas :=
  let img := imageNew size size ⟨0, 0, 0, 0⟩
  let cx := pydiv size 2
  let cy := pydiv size 2
  let base_r := pydiv size 3
  let img := drawEllipse img (cx - base_r) (size - 8) (cx + base_r) (size - 2) ⟨80, 80, 80, 255⟩
  let col_w : ℤ := 4
  let img := drawRectangle img (cx - col_w) cy (cx + col_w) (size - 6) ⟨100, 100, 100, 255⟩
  let head_r := pydiv size 4
  let img := drawEllipse img (cx - head_r) (cy - head_r + 2) (cx + head_r) (cy + head_r + 2) ⟨120, 120, 120, 255⟩
  let img := drawRectangle img (cx - 2) 2 (cx + 2) cy ⟨60, 60, 60, 255⟩
  let img := drawEllipse img (cx - 3) 0 (cx + 3) 5 ⟨255, 200, 100, 200⟩
  img

/-- `create_resource_node_sprite`: a resource node sprite; branches on the
`permanent` flag. -/
def create_resource_node_sprite (size : ℤ) (permanent : Bool) : Canvas :=
  let img := imageNew size size ⟨0, 0, 0, 0⟩
  let cx := pydiv size 2
  let cy := pydiv size 2
  if permanent then
    let color : RGBA := ⟨60, 200, 100, 255⟩
    let img := drawPolygon img
      [(cx, 4), (cx + 10, cy - 4), (cx + 8, size - 8), (cx - 8, size - 8), (cx - 10, cy - 4)] color
    let img := drawPolygon img [(6, cy), (14, 8), (16, cy + 6)] ⟨80, 220, 120, 255⟩
    let img := drawPolygon img [(size - 6, cy), (size - 14, 10), (size - 16, cy + 4)] ⟨50, 180, 90, 255⟩
    let img := drawEllipse img (cx - 6) (cy - 2) (cx + 6) (cy + 8) ⟨100, 255, 150, 100⟩
    img
  else
    let color : RGBA := ⟨220, 180, 60, 255⟩
    let img := drawEllipse img 4 (pydiv size 2) (size - 4) (size - 4) ⟨180, 140, 40, 255⟩
    let img := (List.range 5).foldl (fun im i =>
      let ox := 8 + ((i : ℤ) % 3) * 10 + pydiv (i : ℤ) 3 * 5
      let oy := pydiv size 3 + ((i : ℤ) % 2) * 8
      let chunk_size := 8 + ((i : ℤ) % 3) * 2
      drawEllipse im ox oy (ox + chunk_size) (oy + chunk_size) color) img
    let img := drawEllipse img (cx - 2) (cy - 4) (cx + 2) cy ⟨255, 240, 180, 255⟩
    let img := drawEllipse img (cx + 6) (cy + 2) (cx + 9) (cy + 5) ⟨255, 230, 160, 255⟩
    img

/-- `create_terrain_sprite`: a terrain obstacle sprite (rocks/debris); the
canvas is `size` wide and 60 high. -/
def create_terrain_sprite (size : ℤ) : Canvas :=
  let img := imageNew size 60 ⟨0, 0, 0, 0⟩
  let img := drawPolygon img
    [(10, 55), (5, 35), (15, 15), (35, 8), (55, 12), (70, 20), (75, 40), (70, 55)] ⟨100, 95, 85, 255⟩
  let img := drawPolygon img
    [(20, 45), (18, 30), (30, 18), (45, 20), (48, 35)] ⟨120, 115, 105, 255⟩
  let img := drawPolygon img
    [(50, 50), (55, 25), (68, 30), (70, 50)] ⟨80, 75, 65, 255⟩
  img

/-- One blended channel of `apply_faction_tint`:
`int(channel * (1 - intensity) + target * intensity)`. -/
def tintChannel (ch target : ℤ) (intensity : ℚ) : ℤ :=
  pytrunc ((ch : ℚ) * (1 - intensity) + (target : ℚ) * intensity)

/-- `apply_faction_tint`: blend every non-transparent pixel's RGB toward
the faction color, leaving alpha unchanged.  The loop over
`range(height) × range(width)` rewrites exactly the in-bounds pixels with
positive alpha; all other pixel values are those of the copy of the
input. -/
def apply_faction_tint (img : Canvas) (faction_color : ℤ × ℤ × ℤ) (intensity : ℚ) : Canvas :=
  ⟨img.width, img.height, fun x y =>
    let p := img.pix x y
    if 0 ≤ x ∧ x < img.width ∧ 0 ≤ y ∧ y < img.height ∧ 0 < p.a then
      ⟨tintChannel p.r faction_color.1 intensity,
       tintChannel p.g faction_color.2.1 intensity,
       tintChannel p.b faction_color.2.2 intensity, p.a⟩
    else p⟩

/-- `apply_faction_tint` called without an explicit intensity argument:
the Python default parameter is `intensity=0.4`. -/
def apply_faction_tint_default (img : Canvas) (faction_color : ℤ × ℤ × ℤ) : Canvas :=
  apply_faction_tint img faction_color (2/5)

/-- Write one pixel of a canvas (`pixels[x, y] = c`). -/
def putPixel (img : Canvas) (x y : ℤ) (c : RGBA) : Canvas :=
  ⟨img.width, img.height, fun u v => if u = x ∧ v = y then c else img.pix u v⟩

/-- The coordinates visited by the tint loop, `y` outer and `x` inner. -/
def loopCoords (w h : ℤ) : List (ℤ × ℤ) :=
  (List.range h.toNat).flatMap (fun y => (List.range w.toNat).map (fun x => ((x : ℤ), (y : ℤ))))

/-- One iteration of the tint loop, acting on a heap of canvases: read the
pixel of the result canvas and overwrite it with the blended value if its
alpha is positive. -/
def tintStep (fc : ℤ × ℤ × ℤ) (i : ℚ) (resRef : ℕ) (store : List Canvas) (xy : ℤ × ℤ) :
    List Canvas :=
  match store[resRef]? with
  | none => store
  | some img =>
      let p := img.pix xy.1 xy.2
      if 0 < p.a then
        store.set resRef (putPixel img xy.1 xy.2
          ⟨tintChannel p.r fc.1 i, tintChannel p.g fc.2.1 i, tintChannel p.b fc.2.2 i, p.a⟩)
      else store

/-- `apply_faction_tint` as a program over a heap of canvases, making the
aliasing explicit: `result = img.copy()` allocates a fresh canvas at the
end of the heap, and every write of the loop targets that fresh canvas.
Returns the reference to the result together with the final heap. -/
def apply_faction_tint_prog (store : List Canvas) (imgRef : ℕ) (fc : ℤ × ℤ × ℤ) (i : ℚ) :
    ℕ × List Canvas :=
  match store[imgRef]? with
  | none => (imgRef, store)
  | some img =>
      let resRef := store.length
      (resRef, (loopCoords img.width img.height).foldl (tintStep fc i resRef) (store ++ [img]))

/-- `CONTINUITY_BLUE`. -/
def CONTINUITY_BLUE : ℤ × ℤ × ℤ := (51, 102, 204)

/-- `COLLEGIUM_GOLD`. -/
def COLLEGIUM_GOLD : ℤ × ℤ × ℤ := (204, 153, 51)

/-- The base sprite catalog built by `main`, in order. -/
def baseSprites : List (String × Canvas) :=
  [("infantry", create_infantry_sprite 32),
   ("ranger", create_ranger_sprite 32),
   ("harvester", create_harvester_sprite 36),
   ("depot", create_depot_sprite 64),
   ("barracks", create_barracks_sprite 48),
   ("supply_depot", create_supply_depot_sprite 32),
   ("tech_lab", create_tech_lab_sprite 40),
   ("turret", create_turret_sprite 24),
   ("resource_temp", create_resource_node_sprite 40 false),
   ("resource_perm", create_resource_node_sprite 40 true),
   ("terrain", create_terrain_sprite 80)]

/-- The two factions of `main` with their base colors. -/
def factions : List (String × (ℤ × ℤ × ℤ)) :=
  [("continuity", CONTINUITY_BLUE), ("collegium", COLLEGIUM_GOLD)]

/-- `unit_sprites`. -/
def unit_sprites : List String := ["infantry", "ranger", "harvester"]

/-- `building_sprites`. -/
def building_sprites : List String := ["depot", "barracks", "supply_depot", "tech_lab", "turret"]

/-- The tinted files written by `main`: for each faction and each
unit/building sprite name, the base sprite of that name tinted with the
faction color at intensity 0.35, keyed by faction name and sprite name.
(`sprites[sprite_name]` is the dictionary lookup in the base catalog.) -/
def tintedOutputs : List (String × String × Option Canvas) :=
  factions.flatMap (fun f =>
    (unit_sprites ++ building_sprites).map (fun n =>
      (f.1, n, (baseSprites.lookup n).map (fun img => apply_faction_tint img f.2 (7/20)))))

/-- A 1×1 all-opaque gray canvas used as a concrete test input for the
tint transform. -/
def probeCanvas : Canvas := ⟨1, 1, fun _ _ => ⟨100, 100, 100, 255⟩⟩

/-- Every channel of a pixel is a well-formed 8-bit value. -/
def chanOK (p : RGBA) : Prop :=
  0 ≤ p.r ∧ p.r ≤ 255 ∧ 0 ≤ p.g ∧ p.g ≤ 255 ∧ 0 ≤ p.b ∧ p.b ≤ 255 ∧ 0 ≤ p.a ∧ p.a ≤ 255

instance (p : RGBA) : Decidable (chanOK p) := by
  rw [chanOK]; infer_instance

/-! ## Arithmetic facts about the truncating blend -/

/-- Truncation of an integer is that integer. -/
theorem pytrunc_intCast (n : ℤ) : pytrunc (n : ℚ) = n := by
  rw [pytrunc]
  split
  · exact Int.floor_intCast n
  · exact Int.ceil_intCast n

/-- On nonnegative rationals, truncation toward zero is the floor. -/
theorem pytrunc_eq_floor {q : ℚ} (h : 0 ≤ q) : pytrunc q = ⌊q⌋ := by
  rw [pytrunc, if_pos h]

/-- Blending at intensity 0 keeps the original channel. -/
theorem tintChannel_zero (ch target : ℤ) : tintChannel ch target 0 = ch := by
  rw [tintChannel]
  norm_num
  exact pytrunc_intCast ch

/-- Blending at intensity 1 yields the target channel. -/
theorem tintChannel_one (ch target : ℤ) : tintChannel ch target 1 = target := by
  rw [tintChannel]
  norm_num
  exact pytrunc_intCast target

/-- With both endpoints in 0–255 and the intensity in [0,1], the
truncated convex blend stays in 0–255. -/
theorem tintChannel_in_range (ch target : ℤ) (i : ℚ)
    (h1 : 0 ≤ ch) (h2 : ch ≤ 255) (h3 : 0 ≤ target) (h4 : target ≤ 255)
    (h5 : 0 ≤ i) (h6 : i ≤ 1) :
    0 ≤ tintChannel ch target i ∧ tintChannel ch target i ≤ 255 := by
  have hch : (0:ℚ) ≤ (ch : ℚ) := by exact_mod_cast h1
  have hch2 : (ch : ℚ) ≤ 255 := by exact_mod_cast h2
  have ht : (0:ℚ) ≤ (target : ℚ) := by exact_mod_cast h3
  have ht2 : (target : ℚ) ≤ 255 := by exact_mod_cast h4
  have hq0 : 0 ≤ (ch : ℚ) * (1 - i) + (target : ℚ) * i :=
    add_nonneg (mul_nonneg hch (by linarith)) (mul_nonneg ht h5)
  have hq255 : (ch : ℚ) * (1 - i) + (target : ℚ) * i ≤ 255 := by nlinarith
  rw [tintChannel, pytrunc_eq_floor hq0]
  constructor
  · exact Int.le_floor.mpr (by exact_mod_cast hq0)
  · have := Int.floor_le_floor hq255
    simpa using this

/-! ## Pointwise behavior of the tint transform -/

/-- At an in-bounds coordinate with positive alpha, the tinted pixel is
the blended one, alpha unchanged. -/
theorem apply_faction_tint_pix_visible (img : Canvas) (fc : ℤ × ℤ × ℤ) (i : ℚ) (x y : ℤ)
    (hx0 : 0 ≤ x) (hx1 : x < img.width) (hy0 : 0 ≤ y) (hy1 : y < img.height)
    (ha : 0 < (img.pix x y).a) :
    (apply_faction_tint img fc i).pix x y =
      ⟨tintChannel (img.pix x y).r fc.1 i, tintChannel (img.pix x y).g fc.2.1 i,
       tintChannel (img.pix x y).b fc.2.2 i, (img.pix x y).a⟩ := by
  show (if _ then _ else _) = _
  rw [if_pos ⟨hx0, hx1, hy0, hy1, ha⟩]

/-- A pixel with alpha 0 is copied unchanged by the tint transform. -/
theorem apply_faction_tint_pix_transparent (img : Canvas) (fc : ℤ × ℤ × ℤ) (i : ℚ) (x y : ℤ)
    (ha : (img.pix x y).a = 0) :
    (apply_faction_tint img fc i).pix x y = img.pix x y := by
  show (if _ then _ else _) = _
  rw [if_neg]
  intro h
  have := h.2.2.2.2
  omega

/-- The pixel of the tinted 1×1 probe canvas, expressed with the blended
channels. -/
theorem probe_tint_pix (fc : ℤ × ℤ × ℤ) (i : ℚ) :
    (apply_faction_tint probeCanvas fc i).pix 0 0 =
      ⟨tintChannel 100 fc.1 i, tintChannel 100 fc.2.1 i, tintChannel 100 fc.2.2 i, 255⟩ :=
  apply_faction_tint_pix_visible probeCanvas fc i 0 0 (by decide) (by decide) (by decide)
    (by decide) (by decide)

/-! ## Claims -/

/-- Claim C1: for every input canvas, target RGB triplet with channels in
0–255 and intensity in [0,1], the tint transform returns a canvas of
identical dimensions in which every in-bounds pixel with alpha > 0 has
each of R/G/B replaced by the truncation of
channel·(1−intensity) + target·intensity with its alpha left exactly
unchanged, and every pixel with alpha = 0 is copied entirely unchanged. -/
theorem apply_faction_tint_contract (img : Canvas) (fc : ℤ × ℤ × ℤ) (i : ℚ)
    (_hi : 0 ≤ i ∧ i ≤ 1)
    (_hfc : 0 ≤ fc.1 ∧ fc.1 ≤ 255 ∧ 0 ≤ fc.2.1 ∧ fc.2.1 ≤ 255 ∧ 0 ≤ fc.2.2 ∧ fc.2.2 ≤ 255) :
    (apply_faction_tint img fc i).width = img.width ∧
    (apply_faction_tint img fc i).height = img.height ∧
    ∀ x y : ℤ, 0 ≤ x → x < img.width → 0 ≤ y → y < img.height →
      (0 < (img.pix x y).a →
        (apply_faction_tint img fc i).pix x y =
          ⟨pytrunc (((img.pix x y).r : ℚ) * (1 - i) + (fc.1 : ℚ) * i),
           pytrunc (((img.pix x y).g : ℚ) * (1 - i) + (fc.2.1 : ℚ) * i),
           pytrunc (((img.pix x y).b : ℚ) * (1 - i) + (fc.2.2 : ℚ) * i),
           (img.pix x y).a⟩) ∧
      ((img.pix x y).a = 0 → (apply_faction_tint img fc i).pix x y = img.pix x y) := by
  refine ⟨rfl, rfl, fun x y hx0 hx1 hy0 hy1 => ⟨fun ha => ?_, fun ha => ?_⟩⟩
  · exact apply_faction_tint_pix_visible img fc i x y hx0 hx1 hy0 hy1 ha
  · exact apply_faction_tint_pix_transparent img fc i x y ha

/-- Witness for claim C1: the contract instantiated on the 1×1 opaque
probe canvas, the continuity blue target and intensity 1/2. -/
theorem apply_faction_tint_contract_witness :
    ((0:ℚ) ≤ 1/2 ∧ (1/2:ℚ) ≤ 1) ∧
    ((0:ℤ) ≤ 51 ∧ (51:ℤ) ≤ 255 ∧ (0:ℤ) ≤ 102 ∧ (102:ℤ) ≤ 255 ∧ (0:ℤ) ≤ 204 ∧ (204:ℤ) ≤ 255) ∧
    ((apply_faction_tint probeCanvas (51, 102, 204) (1/2)).width = probeCanvas.width ∧
     (apply_faction_tint probeCanvas (51, 102, 204) (1/2)).height = probeCanvas.height ∧
     ∀ x y : ℤ, 0 ≤ x → x < probeCanvas.width → 0 ≤ y → y < probeCanvas.height →
       (0 < (probeCanvas.pix x y).a →
         (apply_faction_tint probeCanvas (51, 102, 204) (1/2)).pix x y =
           ⟨pytrunc (((probeCanvas.pix x y).r : ℚ) * (1 - 1/2) + ((51:ℤ) : ℚ) * (1/2)),
            pytrunc (((probeCanvas.pix x y).g : ℚ) * (1 - 1/2) + ((102:ℤ) : ℚ) * (1/2)),
            pytrunc (((probeCanvas.pix x y).b : ℚ) * (1 - 1/2) + ((204:ℤ) : ℚ) * (1/2)),
            (probeCanvas.pix x y).a⟩) ∧
       ((probeCanvas.pix x y).a = 0 →
         (apply_faction_tint probeCanvas (51, 102, 204) (1/2)).pix x y = probeCanvas.pix x y)) :=
  ⟨⟨by norm_num, by norm_num⟩, by decide,
   apply_faction_tint_contract probeCanvas (51, 102, 204) (1/2)
     ⟨by norm_num, by norm_num⟩ (by decide)⟩

/-- Claim C2: every generator returns a canvas of exactly the declared
dimensions — width and height equal to the size parameter for every
generator except the terrain generator, whose canvas is size wide by 60
high. -/
theorem generator_dimensions (size : ℤ) (permanent : Bool) :
    ((create_infantry_sprite size).width = size ∧ (create_infantry_sprite size).height = size) ∧
    ((create_ranger_sprite size).width = size ∧ (create_ranger_sprite size).height = size) ∧
    ((create_harvester_sprite size).width = size ∧ (create_harvester_sprite size).height = size) ∧
    ((create_depot_sprite size).width = size ∧ (create_depot_sprite size).height = size) ∧
    ((create_barracks_sprite size).width = size ∧ (create_barracks_sprite size).height = size) ∧
    ((create_supply_depot_sprite size).width = size ∧
      (create_supply_depot_sprite size).height = size) ∧
    ((create_tech_lab_sprite size).width = size ∧ (create_tech_lab_sprite size).height = size) ∧
    ((create_turret_sprite size).width = size ∧ (create_turret_sprite size).height = size) ∧
    ((create_resource_node_sprite size permanent).width = size ∧
      (create_resource_node_sprite size permanent).height = size) ∧
    ((create_terrain_sprite size).width = size ∧ (create_terrain_sprite size).height = 60) := by
  cases permanent <;>
    exact ⟨⟨rfl, rfl⟩, ⟨rfl, rfl⟩, ⟨rfl, rfl⟩, ⟨rfl, rfl⟩, ⟨rfl, rfl⟩, ⟨rfl, rfl⟩,
      ⟨rfl, rfl⟩, ⟨rfl, rfl⟩, ⟨rfl, rfl⟩, ⟨rfl, rfl⟩⟩

/-- Witness for claim C2: the dimensions, evaluated at size 32 with the
permanent flag set. -/
theorem generator_dimensions_witness :
    ((create_infantry_sprite 32).width = 32 ∧ (create_infantry_sprite 32).height = 32) ∧
    ((create_ranger_sprite 32).width = 32 ∧ (create_ranger_sprite 32).height = 32) ∧
    ((create_harvester_sprite 32).width = 32 ∧ (create_harvester_sprite 32).height = 32) ∧
    ((create_depot_sprite 32).width = 32 ∧ (create_depot_sprite 32).height = 32) ∧
    ((create_barracks_sprite 32).width = 32 ∧ (create_barracks_sprite 32).height = 32) ∧
    ((create_supply_depot_sprite 32).width = 32 ∧
      (create_supply_depot_sprite 32).height = 32) ∧
    ((create_tech_lab_sprite 32).width = 32 ∧ (create_tech_lab_sprite 32).height = 32) ∧
    ((create_turret_sprite 32).width = 32 ∧ (create_turret_sprite 32).height = 32) ∧
    ((create_resource_node_sprite 32 true).width = 32 ∧
      (create_resource_node_sprite 32 true).height = 32) ∧
    ((create_terrain_sprite 32).width = 32 ∧ (create_terrain_sprite 32).height = 60) :=
  generator_dimensions 32 true

/-- Claim C3: tinting any canvas with any target at intensity 0 returns a
canvas pixel-identical to the input, and tinting at intensity 1 sets
every in-bounds pixel with positive alpha to exactly the target color
with alpha unchanged. -/
theorem tint_intensity_zero_one (img : Canvas) (fc : ℤ × ℤ × ℤ) :
    apply_faction_tint img fc 0 = img ∧
    ∀ x y : ℤ, 0 ≤ x → x < img.width → 0 ≤ y → y < img.height →
      0 < (img.pix x y).a →
      (apply_faction_tint img fc 1).pix x y = ⟨fc.1, fc.2.1, fc.2.2, (img.pix x y).a⟩ := by
  constructor
  · refine Canvas.ext rfl rfl ?_
    funext x y
    show (if _ then _ else _) = _
    split
    · rw [tintChannel_zero, tintChannel_zero, tintChannel_zero]
    · rfl
  · intro x y hx0 hx1 hy0 hy1 ha
    rw [apply_faction_tint_pix_visible img fc 1 x y hx0 hx1 hy0 hy1 ha,
        tintChannel_one, tintChannel_one, tintChannel_one]

/-- Witness for claim C3: on the probe canvas, intensity 0 is the
identity and intensity 1 paints pixel (0,0) with the continuity blue. -/
theorem tint_intensity_zero_one_witness :
    apply_faction_tint probeCanvas (51, 102, 204) 0 = probeCanvas ∧
    (apply_faction_tint probeCanvas (51, 102, 204) 1).pix 0 0 = ⟨51, 102, 204, 255⟩ :=
  ⟨(tint_intensity_zero_one probeCanvas (51, 102, 204)).1,
   (tint_intensity_zero_one probeCanvas (51, 102, 204)).2 0 0 (by decide) (by decide)
     (by decide) (by decide) (by decide)⟩

/-- Claim C4: tinting is not idempotent — on the opaque gray probe canvas
with the continuity blue target, two sequential tints at intensity 0.35
differ from a single tint at 0.35. -/
theorem tint_not_idempotent :
    apply_faction_tint (apply_faction_tint probeCanvas (51, 102, 204) (7/20)) (51, 102, 204) (7/20)
      ≠ apply_faction_tint probeCanvas (51, 102, 204) (7/20) := by
  intro h
  have h1 : (apply_faction_tint probeCanvas (51, 102, 204) (7/20)).pix 0 0 =
      ⟨82, 100, 136, 255⟩ := by
    rw [probe_tint_pix]
    have er : tintChannel 100 (51, 102, 204).1 (7/20) = 82 := by
      rw [tintChannel, pytrunc, if_pos (by norm_num)]; norm_num
    have eg : tintChannel 100 (51, 102, 204).2.1 (7/20) = 100 := by
      rw [tintChannel, pytrunc, if_pos (by norm_num)]; norm_num
    have eb : tintChannel 100 (51, 102, 204).2.2 (7/20) = 136 := by
      rw [tintChannel, pytrunc, if_pos (by norm_num)]; norm_num
    rw [er, eg, eb]
  have h2 : (apply_faction_tint (apply_faction_tint probeCanvas (51, 102, 204) (7/20))
      (51, 102, 204) (7/20)).pix 0 0 = ⟨71, 100, 159, 255⟩ := by
    have hb := apply_faction_tint_pix_visible (apply_faction_tint probeCanvas (51, 102, 204) (7/20))
      (51, 102, 204) (7/20) 0 0 (by decide) (by decide) (by decide) (by decide)
      (by rw [h1]; decide)
    rw [h1] at hb
    rw [hb]
    have er : tintChannel 82 (51, 102, 204).1 (7/20) = 71 := by
      rw [tintChannel, pytrunc, if_pos (by norm_num)]; norm_num
    have eg : tintChannel 100 (51, 102, 204).2.1 (7/20) = 100 := by
      rw [tintChannel, pytrunc, if_pos (by norm_num)]; norm_num
    have eb : tintChannel 136 (51, 102, 204).2.2 (7/20) = 159 := by
      rw [tintChannel, pytrunc, if_pos (by norm_num)]; norm_num
    rw [er, eg, eb]
  have h0 := congrArg (fun c => c.pix 0 0) h
  simp only at h0
  rw [h1, h2] at h0
  exact absurd h0 (by decide)

/-- For any index other than the result reference, one tint-loop
iteration leaves the heap entry unchanged. -/
theorem tintStep_getElem_ne (fc : ℤ × ℤ × ℤ) (i : ℚ) (resRef : ℕ) (st : List Canvas)
    (p : ℤ × ℤ) (j : ℕ) (hj : j ≠ resRef) :
    (tintStep fc i resRef st p)[j]? = st[j]? := by
  unfold tintStep
  cases h : st[resRef]? with
  | none => rfl
  | some img =>
      dsimp only
      split
      · exact List.getElem?_set_ne (Ne.symm hj)
      · rfl

/-- For any index other than the result reference, the whole tint loop
leaves the heap entry unchanged. -/
theorem foldl_tintStep_getElem_ne (fc : ℤ × ℤ × ℤ) (i : ℚ) (resRef : ℕ)
    (l : List (ℤ × ℤ)) (st : List Canvas) (j : ℕ) (hj : j ≠ resRef) :
    (l.foldl (tintStep fc i resRef) st)[j]? = st[j]? := by
  induction l generalizing st with
  | nil => rfl
  | cons p l ih =>
      rw [List.foldl_cons, ih (tintStep fc i resRef st p),
        tintStep_getElem_ne fc i resRef st p j hj]

/-- Claim C5: the tint transform does not mutate the input canvas — run
as a heap program, it allocates a fresh canvas (the returned reference is
the old heap end) and after the call the input reference still holds
exactly the canvas it held before, every pixel included. -/
theorem tint_preserves_input_store (store : List Canvas) (imgRef : ℕ) (fc : ℤ × ℤ × ℤ) (i : ℚ)
    (h : imgRef < store.length) :
    (apply_faction_tint_prog store imgRef fc i).1 = store.length ∧
    ((apply_faction_tint_prog store imgRef fc i).2)[imgRef]? = store[imgRef]? := by
  have himg : store[imgRef]? = some store[imgRef] := List.getElem?_eq_getElem h
  unfold apply_faction_tint_prog
  rw [himg]
  dsimp only
  refine ⟨rfl, ?_⟩
  rw [foldl_tintStep_getElem_ne fc i store.length _ _ imgRef (Nat.ne_of_lt h),
    List.getElem?_append_left h]
  exact himg

/-- Witness for claim C5: a singleton heap holding the probe canvas; the
input entry is untouched by the tint program. -/
theorem tint_preserves_input_store_witness :
    0 < [probeCanvas].length ∧
    (apply_faction_tint_prog [probeCanvas] 0 (51, 102, 204) (7/20)).1 = [probeCanvas].length ∧
    ((apply_faction_tint_prog [probeCanvas] 0 (51, 102, 204) (7/20)).2)[0]? = [probeCanvas][0]? :=
  ⟨by decide, tint_preserves_input_store [probeCanvas] 0 (51, 102, 204) (7/20) (by decide)⟩

/-- Claim C6 counterexample: the driver does not produce 32 tinted files;
it produces 16 (8 per faction, not 16 per faction). -/
theorem main_output_count_counterexample :
    tintedOutputs.length = 16 ∧ tintedOutputs.length ≠ 32 := by
  constructor <;> decide

/-- Claim C6 (amended): a complete run of the driver produces exactly 11
base sprites and, for 2 factions over the (3 unit + 5 building) sprite
names, 8 tinted sprites per faction (16 tinted sprites total), each with
the expected declared dimensions. -/
theorem main_output_catalog :
    baseSprites.length = 11 ∧
    tintedOutputs.length = 16 ∧
    (tintedOutputs.countP (fun e => e.1 == "continuity")) = 8 ∧
    (tintedOutputs.countP (fun e => e.1 == "collegium")) = 8 ∧
    baseSprites.map (fun e => (e.1, e.2.width, e.2.height)) =
      [("infantry", 32, 32), ("ranger", 32, 32), ("harvester", 36, 36), ("depot", 64, 64),
       ("barracks", 48, 48), ("supply_depot", 32, 32), ("tech_lab", 40, 40), ("turret", 24, 24),
       ("resource_temp", 40, 40), ("resource_perm", 40, 40), ("terrain", 80, 60)] ∧
    tintedOutputs.map
        (fun e => (e.1, e.2.1, Option.map (fun img => (img.width, img.height)) e.2.2)) =
      [("continuity", "infantry", some (32, 32)), ("continuity", "ranger", some (32, 32)),
       ("continuity", "harvester", some (36, 36)), ("continuity", "depot", some (64, 64)),
       ("continuity", "barracks", some (48, 48)), ("continuity", "supply_depot", some (32, 32)),
       ("continuity", "tech_lab", some (40, 40)), ("continuity", "turret", some (24, 24)),
       ("collegium", "infantry", some (32, 32)), ("collegium", "ranger", some (32, 32)),
       ("collegium", "harvester", some (36, 36)), ("collegium", "depot", some (64, 64)),
       ("collegium", "barracks", some (48, 48)), ("collegium", "supply_depot", some (32, 32)),
       ("collegium", "tech_lab", some (40, 40)), ("collegium", "turret", some (24, 24))] := by
  refine ⟨rfl, by decide, by decide, by decide, by decide, by decide⟩

/-- Claim C7: the 24×24 turret sprite has a fully transparent corner
pixel and a fully opaque pixel of exact color (120,120,120,255) inside
the turret-head ellipse. -/
theorem turret_sprite_pixels :
    (create_turret_sprite 24).width = 24 ∧ (create_turret_sprite 24).height = 24 ∧
    ((create_turret_sprite 24).pix 0 0).a = 0 ∧
    inEllipse 6 8 18 20 12 16 = true ∧
    (create_turret_sprite 24).pix 12 16 = ⟨120, 120, 120, 255⟩ := by
  decide

/-- Claim C8: the resource-node generator branches on the permanent flag;
the permanent canvas has a translucent glow pixel (alpha strictly between
0 and 255), the temporary canvas has a metallic-glint highlight pixel,
and at size 40 the two branches differ at a pixel. -/
theorem resource_node_branches :
    (create_resource_node_sprite 40 true).width = 40 ∧
    (create_resource_node_sprite 40 true).height = 40 ∧
    (create_resource_node_sprite 40 false).width = 40 ∧
    (create_resource_node_sprite 40 false).height = 40 ∧
    (0 < ((create_resource_node_sprite 40 true).pix 20 23).a ∧
      ((create_resource_node_sprite 40 true).pix 20 23).a < 255) ∧
    (create_resource_node_sprite 40 false).pix 20 18 = ⟨255, 240, 180, 255⟩ ∧
    (create_resource_node_sprite 40 true).pix 20 10 ≠
      (create_resource_node_sprite 40 false).pix 20 10 := by
  decide

/-- Claim C9: with canvas channels in 0–255, target channels in 0–255 and
intensity in [0,1], every pixel the tint transform yields is a
well-formed 8-bit RGBA value — the truncated convex blend never
underflows below 0 or overflows above 255. -/
theorem tint_channels_in_range (img : Canvas) (fc : ℤ × ℤ × ℤ) (i : ℚ) (x y : ℤ)
    (himg : ∀ u v : ℤ, chanOK (img.pix u v))
    (hfc : 0 ≤ fc.1 ∧ fc.1 ≤ 255 ∧ 0 ≤ fc.2.1 ∧ fc.2.1 ≤ 255 ∧ 0 ≤ fc.2.2 ∧ fc.2.2 ≤ 255)
    (hi : 0 ≤ i ∧ i ≤ 1) :
    chanOK ((apply_faction_tint img fc i).pix x y) := by
  obtain ⟨hr1, hr2, hg1, hg2, hb1, hb2, ha1, ha2⟩ := himg x y
  show chanOK (if _ then _ else _)
  split
  · obtain ⟨hR1, hR2⟩ :=
      tintChannel_in_range (img.pix x y).r fc.1 i hr1 hr2 hfc.1 hfc.2.1 hi.1 hi.2
    obtain ⟨hG1, hG2⟩ :=
      tintChannel_in_range (img.pix x y).g fc.2.1 i hg1 hg2 hfc.2.2.1 hfc.2.2.2.1 hi.1 hi.2
    obtain ⟨hB1, hB2⟩ :=
      tintChannel_in_range (img.pix x y).b fc.2.2 i hb1 hb2 hfc.2.2.2.2.1 hfc.2.2.2.2.2 hi.1 hi.2
    exact ⟨hR1, hR2, hG1, hG2, hB1, hB2, ha1, ha2⟩
  · exact himg x y

/-- Witness for claim C9: the range property instantiated on the probe
canvas, the continuity blue target and intensity 1/2. -/
theorem tint_channels_in_range_witness :
    (∀ u v : ℤ, chanOK (probeCanvas.pix u v)) ∧
    chanOK ((apply_faction_tint probeCanvas (51, 102, 204) (1/2)).pix 0 0) :=
  ⟨fun _ _ => by show chanOK ⟨100, 100, 100, 255⟩; decide,
   tint_channels_in_range probeCanvas (51, 102, 204) (1/2) 0 0
     (fun _ _ => by show chanOK ⟨100, 100, 100, 255⟩; decide)
     (by decide) ⟨by norm_num, by norm_num⟩⟩

/-- Claim C10: calling the tint transform without an explicit intensity
argument blends at the default intensity 0.4, not at the 0.35 used by
the driver — on the probe canvas with the continuity blue target the
default call equals the intensity-0.4 call and differs from the
intensity-0.35 call. -/
theorem tint_default_intensity :
    apply_faction_tint_default probeCanvas (51, 102, 204) =
      apply_faction_tint probeCanvas (51, 102, 204) (2/5) ∧
    apply_faction_tint_default probeCanvas (51, 102, 204) ≠
      apply_faction_tint probeCanvas (51, 102, 204) (7/20) := by
  refine ⟨rfl, fun h => ?_⟩
  have h1 : (apply_faction_tint probeCanvas (51, 102, 204) (7/20)).pix 0 0 =
      ⟨82, 100, 136, 255⟩ := by
    rw [probe_tint_pix]
    have er : tintChannel 100 (51, 102, 204).1 (7/20) = 82 := by
      rw [tintChannel, pytrunc, if_pos (by norm_num)]; norm_num
    have eg : tintChannel 100 (51, 102, 204).2.1 (7/20) = 100 := by
      rw [tintChannel, pytrunc, if_pos (by norm_num)]; norm_num
    have eb : tintChannel 100 (51, 102, 204).2.2 (7/20) = 136 := by
      rw [tintChannel, pytrunc, if_pos (by norm_num)]; norm_num
    rw [er, eg, eb]
  have h2 : (apply_faction_tint_default probeCanvas (51, 102, 204)).pix 0 0 =
      ⟨80, 100, 141, 255⟩ := by
    rw [apply_faction_tint_default, probe_tint_pix]
    have er : tintChannel 100 (51, 102, 204).1 (2/5) = 80 := by
      rw [tintChannel, pytrunc, if_pos (by norm_num)]; norm_num
    have eg : tintChannel 100 (51, 102, 204).2.1 (2/5) = 100 := by
      rw [tintChannel, pytrunc, if_pos (by norm_num)]; norm_num
    have eb : tintChannel 100 (51, 102, 204).2.2 (2/5) = 141 := by
      rw [tintChannel, pytrunc, if_pos (by norm_num)]; norm_num
    rw [er, eg, eb]
  have h0 := congrArg (fun c => c.pix 0 0) h
  simp only at h0
  rw [h1, h2] at h0
  exact absurd h0 (by decide)

end SpriteGen
